import Mathlib

/-!
# Visual-regression helper subsystem: a shallow embedding

This file embeds the visual-regression helper module of the repository
(`src/utilities/fileSystemHelpers.js`) in Lean 4 and proves properties of it:
the temp-file store (`createUniqueFileName`, `getTempFilePath`,
`checkFileExists`, `deleteTempFile`, `readFile`, `writeFile`,
`writeDataToFile`), the remote image fetcher
(`downloadImageFromUrlToTempDir`), and the visual-regression orchestrator
(`getMismatchedPixelsCount`).

Modelling choices:
* The filesystem is an association list from paths to byte contents
  (`FS`); writes prepend, deletes remove every entry with the path.
* JavaScript promises are modelled by `Except`-valued outcomes (an
  `Except.error` is a rejection) and `Option`-valued results where the source
  catches an error and resolves with `undefined` (`none`).
* The asynchronous control flow of the source is modelled by its sequential
  program order; `Date.now()` and `os.tmpdir()` are explicit parameters.
* External libraries that are not part of the repository are modelled in an
  environment record `Env`: `pngjs` decoding/encoding, the `sharp` resize
  pipeline, the per-pixel perceptual distance used by `pixelmatch`, and the
  Playwright report attachment (an external side effect recorded as an
  event).  The `pixelmatch` comparison itself is given a concrete model from
  its documented behaviour (count pixels whose distance exceeds the
  threshold).
* Each run also returns the list of file events it performed, in program
  order, so that creation/attachment/deletion ordering can be stated.
-/

namespace VisualRegression

/-- Raw bytes of a file, as a list of byte values. -/
abbrev ByteData := List Nat

/-- The filesystem: an association list from paths to file contents. -/
abbrev FS := List (String × ByteData)

/-- Look up the contents of a file, `none` when the path does not exist. -/
def fsLookup : FS → String → Option ByteData
  | [], _ => none
  | e :: rest, p => if e.1 = p then some e.2 else fsLookup rest p

/-- Create or overwrite a file. -/
def fsWrite (fs : FS) (p : String) (d : ByteData) : FS :=
  (p, d) :: fs

/-- Remove every entry at path `p`. -/
def fsDelete : FS → String → FS
  | [], _ => []
  | e :: rest, p => if e.1 = p then fsDelete rest p else e :: fsDelete rest p

/-- `checkFileExists(filePath)` from the source (lines 81–92): wraps
`fs.existsSync`, returns `false` on any error, never throws. -/
def checkFileExists (fs : FS) (filePath : String) : Bool :=
  (fsLookup fs filePath).isSome

/-- `deleteTempFile(filePath)` from the source (lines 95–101): calls
`fs.unlinkSync` and swallows (logs) any error, so it is total; a missing
file is simply left missing. -/
def deleteTempFile (fs : FS) (filePath : String) : FS :=
  fsDelete fs filePath

/-- The promisified `fs.readFile`: resolves with the file's bytes, or rejects
with an `ENOENT` error when the path does not exist. -/
def fsReadPrim (fs : FS) (filePath : String) : Except String ByteData :=
  match fsLookup fs filePath with
  | some d => Except.ok d
  | none => Except.error ("ENOENT: no such file, " ++ filePath)

/-- The promisified `fs.writeFile`: writes the bytes, unless the underlying
OS reports an I/O error (injected here as `ioError`), in which case it
rejects with that error. -/
def fsWritePrim (fs : FS) (filePath : String) (data : ByteData)
    (ioError : Option String) : Except String FS :=
  match ioError with
  | some e => Except.error e
  | none => Except.ok (fsWrite fs filePath data)

/-- `readFile(filePath)` from the source (lines 104–112): awaits the
promisified `fs.readFile` inside a `try`; on success resolves with the
buffer, on failure logs the error inside `catch` and resolves with
`undefined` (`none`).  The outer `Except` is the outcome of the promise
returned to the caller: an `Except.error` would model a rejection. -/
def readFile (fs : FS) (filePath : String) : Except String (Option ByteData) :=
  match fsReadPrim fs filePath with
  | Except.ok fileBuffer => Except.ok (some fileBuffer)
  | Except.error _ => Except.ok none

/-- `writeFile(filePath, data)` from the source (lines 115–122): awaits the
promisified `fs.writeFile` inside a `try`; on failure logs the error inside
`catch` and resolves with `undefined` (`none`); on success resolves with the
updated filesystem. -/
def writeFile (fs : FS) (filePath : String) (data : ByteData)
    (ioError : Option String) : Except String (Option FS) :=
  match fsWritePrim fs filePath data ioError with
  | Except.ok fs2 => Except.ok (some fs2)
  | Except.error _ => Except.ok none

/-- The slice of Playwright's `testInfo` the module reads:
`testInfo.project.name` and `testInfo.project.use.defaultBrowserType`. -/
structure TestInfo where
  projectName : String
  defaultBrowserType : String
deriving DecidableEq

/-- The slice of the Playwright browser context the module reads:
`sharedContext._options.isMobile`, which may be `undefined` (`none`). -/
structure SharedContext where
  isMobile : Option Bool
deriving DecidableEq

/-- Decimal digit character, `48 + d` is the code point of the digit `d`. -/
def natDecimalChar (d : Nat) : Char :=
  Char.ofNat (48 + d)

/-- The JavaScript decimal stringification of a non-negative number, as in
the template literal `` `${timestamp}` ``. -/
def natToString (n : Nat) : String :=
  if n = 0 then "0" else String.mk (((Nat.digits 10 n).map natDecimalChar).reverse)

/-- Inverse of `natDecimalChar` on digit characters. -/
def decimalCharToNat (c : Char) : Nat :=
  c.toNat - 48

/-- Parse a decimal string back to a number (used only to prove that
`natToString` is injective). -/
def decimalStringToNat (s : String) : Nat :=
  Nat.ofDigits 10 (s.data.reverse.map decimalCharToNat)

theorem decimalCharToNat_natDecimalChar {d : Nat} (hd : d < 10) :
    decimalCharToNat (natDecimalChar d) = d := by
  interval_cases d <;> decide

theorem decimalStringToNat_natToString (n : Nat) :
    decimalStringToNat (natToString n) = n := by
  by_cases h0 : n = 0
  · subst h0; decide
  · unfold natToString decimalStringToNat
    simp only [h0, if_false]
    rw [List.reverse_reverse, List.map_map]
    have hmap : (Nat.digits 10 n).map (decimalCharToNat ∘ natDecimalChar)
        = (Nat.digits 10 n).map id := by
      apply List.map_congr_left
      intro d hd
      have : d < 10 := Nat.digits_lt_base (by norm_num) hd
      simpa using decimalCharToNat_natDecimalChar this
    rw [hmap, List.map_id, Nat.ofDigits_digits]

theorem natToString_injective : Function.Injective natToString := by
  intro a b h
  have := congrArg decimalStringToNat h
  rwa [decimalStringToNat_natToString, decimalStringToNat_natToString] at this

/-- Left-cancellation for string concatenation. -/
theorem string_append_cancel_left {a b c : String} (h : a ++ b = a ++ c) :
    b = c := by
  apply String.ext
  have hd := congrArg String.data h
  rw [String.data_append, String.data_append] at hd
  exact List.append_cancel_left hd

/-- Right-cancellation for string concatenation. -/
theorem string_append_cancel_right {a b c : String} (h : a ++ b = c ++ b) :
    a = c := by
  apply String.ext
  have hd := congrArg String.data h
  rw [String.data_append, String.data_append] at hd
  exact List.append_cancel_right hd

/-- `createUniqueFileName(testInfo, filename)` from the source (lines 12–20):
returns `` `${projectName}_${timestamp}_${filename}` `` where the timestamp
is `Date.now()`, passed here explicitly as `now`. -/
def createUniqueFileName (testInfo : TestInfo) (now : Nat) (filename : String) :
    String :=
  testInfo.projectName ++ "_" ++ natToString now ++ "_" ++ filename

/-- Different timestamps give different unique file names (shared helper). -/
theorem createUniqueFileName_ne_of_now_ne (ti : TestInfo) (f : String)
    {t1 t2 : Nat} (h : t1 ≠ t2) :
    createUniqueFileName ti t1 f ≠ createUniqueFileName ti t2 f := by
  intro he
  apply h
  apply natToString_injective
  apply String.ext
  unfold createUniqueFileName at he
  have hd := congrArg String.data he
  simp only [String.data_append, List.append_assoc] at hd
  have h1 := List.append_cancel_left hd
  have h2 := List.append_cancel_left h1
  exact List.append_cancel_right h2

/-- `getTempFilePath(fileName)` from the source (lines 23–33): joins the OS
temp directory (`os.tmpdir()`, passed here as `tmpDir`) with the file
name. -/
def getTempFilePath (tmpDir : String) (fileName : String) : String :=
  tmpDir ++ "/" ++ fileName

/-- Distinct file names give distinct temp paths (shared helper). -/
theorem getTempFilePath_ne_of_ne (tmpDir : String) {n1 n2 : String}
    (h : n1 ≠ n2) : getTempFilePath tmpDir n1 ≠ getTempFilePath tmpDir n2 := by
  intro he
  exact h (string_append_cancel_left he)

/-- The two baseline assets of the reference deployment (source lines
133 and 135). -/
def baselineHomepageLogoWebkitMobile : String :=
  "./tests/test-data/baseline-images/baseline_homepage_logo_Webkit_Mobile.png"

/-- The default baseline asset. -/
def baselineHomepageLogo : String :=
  "./tests/test-data/baseline-images/baseline_homepage_logo.png"

/-- Baseline selection of the orchestrator (source lines 127–136): the
mobile + webkit combination selects the webkit-mobile baseline, every other
combination the default baseline. -/
def expectedBaselinePath (defaultBrowserType : String) (isMobile : Bool) :
    String :=
  if isMobile && (defaultBrowserType == "webkit") then
    baselineHomepageLogoWebkitMobile
  else
    baselineHomepageLogo

/-- `sharedContext._options.isMobile || false` (source line 130): an absent
(`undefined`) flag defaults to `false`. -/
def effectiveIsMobile (ctx : SharedContext) : Bool :=
  match ctx.isMobile with
  | some b => b
  | none => false

/-- C8: baseline selection is a pure function of (browser engine, mobile
flag) with exactly two outcomes: mobile + webkit resolves to the
webkit-mobile baseline, every other combination to the default baseline, and
the two baseline paths are distinct. -/
theorem baseline_selection_pure_two_outcomes (bt : String) (mob : Bool) :
    (expectedBaselinePath bt mob = baselineHomepageLogoWebkitMobile ∨
      expectedBaselinePath bt mob = baselineHomepageLogo) ∧
    (mob = true ∧ bt = "webkit" →
      expectedBaselinePath bt mob = baselineHomepageLogoWebkitMobile) ∧
    (mob = false ∨ bt ≠ "webkit" →
      expectedBaselinePath bt mob = baselineHomepageLogo) ∧
    baselineHomepageLogoWebkitMobile ≠ baselineHomepageLogo := by
  refine ⟨?_, ?_, ?_, by decide⟩
  · unfold expectedBaselinePath
    by_cases h : (mob && (bt == "webkit")) = true
    · rw [if_pos h]; exact Or.inl rfl
    · rw [if_neg h]; exact Or.inr rfl
  · rintro ⟨hm, hb⟩
    subst hm; subst hb
    rfl
  · intro h
    unfold expectedBaselinePath
    have : (mob && (bt == "webkit")) = false := by
      rcases h with h | h
      · rw [h]; rfl
      · rw [Bool.and_eq_false_iff]
        right
        exact beq_eq_false_iff_ne.mpr h
    rw [this]
    rfl

/-- Witness for C8 at the concrete pair (webkit, mobile). -/
theorem baseline_selection_pure_two_outcomes_witness :
    expectedBaselinePath "webkit" true = baselineHomepageLogoWebkitMobile :=
  (baseline_selection_pure_two_outcomes "webkit" true).2.1 ⟨rfl, rfl⟩

/-- C9: `createUniqueFileName` combines the project identity, the millisecond
timestamp and the logical filename into the returned name, and for a fixed
identity and filename two calls observing different timestamps never return
the same name. -/
theorem createUniqueFileName_combines_and_unique (ti : TestInfo) (f : String)
    (t1 t2 : Nat) (h : t1 ≠ t2) :
    createUniqueFileName ti t1 f
        = ti.projectName ++ "_" ++ natToString t1 ++ "_" ++ f ∧
    createUniqueFileName ti t1 f ≠ createUniqueFileName ti t2 f :=
  ⟨rfl, createUniqueFileName_ne_of_now_ne ti f h⟩

/-- Witness for C9 at concrete timestamps 0 and 1. -/
theorem createUniqueFileName_combines_and_unique_witness :
    createUniqueFileName ⟨"chromium", "chromium"⟩ 0 "shot.png"
        = "chromium" ++ "_" ++ natToString 0 ++ "_" ++ "shot.png" ∧
    createUniqueFileName ⟨"chromium", "chromium"⟩ 0 "shot.png"
        ≠ createUniqueFileName ⟨"chromium", "chromium"⟩ 1 "shot.png" :=
  createUniqueFileName_combines_and_unique ⟨"chromium", "chromium"⟩
    "shot.png" 0 1 (by decide)

/-- A decoded raster image (the pngjs `PNG` object): width, height and the
RGBA pixel buffer. -/
structure RasterImage where
  width : Nat
  height : Nat
  data : List Nat
deriving DecidableEq

/-- External collaborators of the module, none of which are code of this
repository: `pngjs` decoding (`PNG.sync.read`; `none` models a decode
exception on malformed input), the `sharp` resize pipeline
(`sharp(buffer).resize(w, h).png().toBuffer()`), `pngjs` serialization
(`png.pack()`), the per-pixel perceptual color distance computed by
`pixelmatch` (on its normalized 0–1 scale), the clock `Date.now()` at the
moment the orchestrator builds the diff file name, and `os.tmpdir()`. -/
structure Env where
  decode : ByteData → Option RasterImage
  resize : Nat → Nat → ByteData → ByteData
  encode : RasterImage → ByteData
  dist : RasterImage → RasterImage → Nat → ℚ
  now : Nat
  tmpDir : String

/-- File events a run performs, in program order. -/
inductive FsEvent where
  | created (p : String)
  | deleted (p : String)
  | attached (p : String)
deriving DecidableEq

/-- Decidable equality for `Except` outcomes, so concrete runs can be
settled by `decide`. -/
instance {ε α : Type} [DecidableEq ε] [DecidableEq α] :
    DecidableEq (Except ε α) := fun x y =>
  match x, y with
  | Except.error a, Except.error b =>
      if h : a = b then isTrue (by rw [h])
      else isFalse (fun hc => h (Except.error.inj hc))
  | Except.error _, Except.ok _ => isFalse (fun hc => Except.noConfusion hc)
  | Except.ok _, Except.error _ => isFalse (fun hc => Except.noConfusion hc)
  | Except.ok a, Except.ok b =>
      if h : a = b then isTrue (by rw [h])
      else isFalse (fun hc => h (Except.ok.inj hc))

/-- The outcome of streaming a response body to disk: the complete bytes, or
a stream error (network or disk) after some bytes were already written. -/
inductive StreamOutcome where
  | complete (data : ByteData)
  | failed (written : ByteData) (message : String)
deriving DecidableEq

/-- The slice of the HTTPS response the downloader reads: the status code,
the `content-type` header (`none` models an absent header), and the outcome
of streaming the body. -/
structure HttpResponse where
  statusCode : Nat
  contentType : Option String
  body : StreamOutcome
deriving DecidableEq

/-- The content-type check `/^image\//.test(response.headers['content-type'])`
(source line 43): an absent header stringifies to `"undefined"` in
JavaScript, which does not match the pattern. -/
def contentTypeIsImage : Option String → Bool
  | some s => List.isPrefixOf "image/".data s.data
  | none => false

/-- The errors the downloader can reject with: the validation failure built
at source line 45 (carrying the url and the status code), a stream error
propagated by `cleanupAndReject` (lines 53–58), and a connection error from
the `https.get` error event (lines 71–76). -/
inductive DownloadError where
  | fetchError (url : String) (statusCode : Nat)
  | streamError (message : String)
  | connectionError (message : String)
deriving DecidableEq

/-- Result of a download run: the settled promise, the final filesystem, and
the file events in program order. -/
structure DownloadResult where
  result : Except DownloadError String
  fs : FS
  events : List FsEvent
deriving DecidableEq

/-- `downloadImageFromUrlToTempDir(url)` from the source (lines 36–78).  The
HTTPS exchange is modelled by its observable outcome: `Except.error e` when
the connection itself fails (the `https.get` error event rejects without
touching the filesystem), `Except.ok response` when a response arrives.  A
response failing the status/content-type validation is rejected before any
file is created.  Otherwise `fs.createWriteStream` creates the temp file at
the fixed name `test_picture.jpg`; on a stream error `cleanupAndReject`
deletes the partially-written file and then rejects, and on completion the
promise resolves with the temp file path. -/
def downloadImageFromUrlToTempDir (env : Env) (fs0 : FS) (url : String)
    (exchange : Except String HttpResponse) : DownloadResult :=
  match exchange with
  | Except.error e => ⟨Except.error (DownloadError.connectionError e), fs0, []⟩
  | Except.ok response =>
    if response.statusCode < 200 ∨ 300 ≤ response.statusCode ∨
        contentTypeIsImage response.contentType = false then
      ⟨Except.error (DownloadError.fetchError url response.statusCode), fs0, []⟩
    else
      let filePath := getTempFilePath env.tmpDir "test_picture.jpg"
      match response.body with
      | StreamOutcome.failed written e =>
          ⟨Except.error (DownloadError.streamError e),
            deleteTempFile (fsWrite fs0 filePath written) filePath,
            [FsEvent.created filePath, FsEvent.deleted filePath]⟩
      | StreamOutcome.complete data =>
          ⟨Except.ok filePath, fsWrite fs0 filePath data,
            [FsEvent.created filePath]⟩

/-- Looking up a path right after deleting it finds nothing. -/
theorem fsLookup_fsDelete_self (fs : FS) (p : String) :
    fsLookup (fsDelete fs p) p = none := by
  induction fs with
  | nil => rfl
  | cons e rest ih =>
      unfold fsDelete
      by_cases h : e.1 = p
      · rw [if_pos h]; exact ih
      · rw [if_neg h]
        unfold fsLookup
        rw [if_neg h]
        exact ih

/-- Deleting one path cannot bring another path into existence. -/
theorem fsLookup_fsDelete_of_none {fs : FS} {r : String}
    (h : fsLookup fs r = none) (q : String) :
    fsLookup (fsDelete fs q) r = none := by
  induction fs with
  | nil => rfl
  | cons e rest ih =>
      unfold fsLookup at h
      by_cases he : e.1 = r
      · rw [if_pos he] at h; exact absurd h (by simp)
      · rw [if_neg he] at h
        unfold fsDelete
        by_cases hq : e.1 = q
        · rw [if_pos hq]; exact ih h
        · rw [if_neg hq]
          unfold fsLookup
          rw [if_neg he]
          exact ih h

/-- `writeDataToFile(data, fileName)` from the source (lines 199–203):
computes the temp path, pipes the packed PNG into a write stream at that
path, and returns the path.  In this sequential model the stream's effect on
the filesystem is immediate. -/
def writeDataToFile (env : Env) (fs : FS) (data : RasterImage)
    (fileName : String) : String × FS :=
  let filePath := getTempFilePath env.tmpDir fileName
  (filePath, fsWrite fs filePath (env.encode data))

/-- A concrete environment for counterexamples: decoding always fails. -/
def envNoDecode : Env :=
  { decode := fun _ => none
    resize := fun _ _ b => b
    encode := fun _ => [0]
    dist := fun _ _ _ => 0
    now := 0
    tmpDir := "/tmp" }

/-- A concrete 1×1 raster image. -/
def imgEx : RasterImage := ⟨1, 1, [0, 0, 0, 255]⟩

/-- C2, as stated, is false: the underlying `fs.readFile` / `fs.writeFile`
errors are caught, logged and swallowed — the wrappers resolve with
`undefined` instead of rejecting. -/
theorem readFile_writeFile_swallow_counterexample :
    fsReadPrim ([] : FS) "missing.png"
        = Except.error "ENOENT: no such file, missing.png" ∧
    readFile ([] : FS) "missing.png" = Except.ok none ∧
    fsWritePrim ([] : FS) "locked.png" [1] (some "EACCES: locked.png")
        = Except.error "EACCES: locked.png" ∧
    writeFile ([] : FS) "locked.png" [1] (some "EACCES: locked.png")
        = Except.ok none := by
  decide

/-- C2 (amended): `readFile` and `writeFile` never reject; when the
underlying I/O operation fails, the error is caught and logged and the
promise resolves with `undefined` (`none`). -/
theorem readFile_writeFile_swallow (fs : FS) (p : String) (d : ByteData)
    (ioError : Option String) :
    (readFile fs p).isOk = true ∧
    (writeFile fs p d ioError).isOk = true ∧
    (∀ e, fsReadPrim fs p = Except.error e → readFile fs p = Except.ok none) ∧
    (∀ e, fsWritePrim fs p d ioError = Except.error e →
      writeFile fs p d ioError = Except.ok none) := by
  refine ⟨?_, ?_, ?_, ?_⟩
  · unfold readFile
    cases h : fsReadPrim fs p <;> rfl
  · unfold writeFile
    cases h : fsWritePrim fs p d ioError <;> rfl
  · intro e he
    unfold readFile
    rw [he]
  · intro e he
    unfold writeFile
    rw [he]

/-- Witness for the amended C2 at a concrete missing file and a concrete
failing write. -/
theorem readFile_writeFile_swallow_witness :
    readFile ([] : FS) "a.png" = Except.ok none ∧
    (writeFile ([] : FS) "a.png" [2] (some "EIO")).isOk = true :=
  ⟨(readFile_writeFile_swallow [] "a.png" [2] (some "EIO")).2.2.1
      "ENOENT: no such file, a.png" (by decide),
   (readFile_writeFile_swallow [] "a.png" [2] (some "EIO")).2.1⟩

/-- C3, as stated, is false: the downloader does not use the unique-naming
scheme at all — it always writes to the fixed logical name
`test_picture.jpg`, so two successful downloads in the same run resolve with
the very same temp path. -/
theorem download_path_collision_counterexample :
    (downloadImageFromUrlToTempDir envNoDecode [] "https://a.example/one.jpg"
        (Except.ok ⟨200, some "image/jpeg", StreamOutcome.complete [1]⟩)).result
      = Except.ok "/tmp/test_picture.jpg" ∧
    (downloadImageFromUrlToTempDir envNoDecode [("x", [0])]
        "https://a.example/two.jpg"
        (Except.ok ⟨200, some "image/png", StreamOutcome.complete [2]⟩)).result
      = Except.ok "/tmp/test_picture.jpg" := by
  decide

/-- C3 (amended): temp paths created by the diff writer are unique per
(test identity, timestamp, logical filename); the downloader, however,
always resolves with the one fixed path for `test_picture.jpg` in the temp
directory, so its paths are shared between downloads. -/
theorem diff_writer_paths_unique_downloader_path_fixed (env : Env)
    (ti : TestInfo) (f : String) (t1 t2 : Nat) (h : t1 ≠ t2) (fs : FS)
    (img : RasterImage) :
    (writeDataToFile env fs img (createUniqueFileName ti t1 f)).1
        ≠ (writeDataToFile env fs img (createUniqueFileName ti t2 f)).1 ∧
    (∀ (fs0 : FS) (url : String) (ex : Except String HttpResponse) (p : String),
      (downloadImageFromUrlToTempDir env fs0 url ex).result = Except.ok p →
      p = getTempFilePath env.tmpDir "test_picture.jpg") := by
  constructor
  · exact getTempFilePath_ne_of_ne env.tmpDir
      (createUniqueFileName_ne_of_now_ne ti f h)
  · intro fs0 url ex p hp
    cases ex with
    | error e =>
        simp only [downloadImageFromUrlToTempDir] at hp
        exact absurd hp (by simp)
    | ok r =>
        simp only [downloadImageFromUrlToTempDir] at hp
        by_cases hbad : r.statusCode < 200 ∨ 300 ≤ r.statusCode ∨
            contentTypeIsImage r.contentType = false
        · rw [if_pos hbad] at hp
          exact absurd hp (by simp)
        · rw [if_neg hbad] at hp
          match hb : r.body with
          | StreamOutcome.failed w e =>
              rw [hb] at hp
              exact absurd hp (by simp)
          | StreamOutcome.complete d =>
              rw [hb] at hp
              simpa using hp.symm

/-- Witness for the amended C3 at concrete timestamps 0 and 1. -/
theorem diff_writer_paths_unique_witness :
    (writeDataToFile envNoDecode [] imgEx
        (createUniqueFileName ⟨"chromium", "chromium"⟩ 0 "diff.png")).1
      ≠ (writeDataToFile envNoDecode [] imgEx
        (createUniqueFileName ⟨"chromium", "chromium"⟩ 1 "diff.png")).1 :=
  (diff_writer_paths_unique_downloader_path_fixed envNoDecode
    ⟨"chromium", "chromium"⟩ "diff.png" 0 1 (by decide) [] imgEx).1

/-- C5: the downloader rejects with the fetch error carrying the status code
iff the status code is outside [200, 300) or the content-type does not match
`image/*`; in that case no file is touched, and otherwise it proceeds to
stream the download into the temp file. -/
theorem download_validation_iff (env : Env) (fs0 : FS) (url : String)
    (r : HttpResponse) :
    ((downloadImageFromUrlToTempDir env fs0 url (Except.ok r)).result
        = Except.error (DownloadError.fetchError url r.statusCode) ↔
      (r.statusCode < 200 ∨ 300 ≤ r.statusCode ∨
        contentTypeIsImage r.contentType = false)) ∧
    ((r.statusCode < 200 ∨ 300 ≤ r.statusCode ∨
        contentTypeIsImage r.contentType = false) →
      (downloadImageFromUrlToTempDir env fs0 url (Except.ok r)).fs = fs0 ∧
      (downloadImageFromUrlToTempDir env fs0 url (Except.ok r)).events = []) ∧
    (¬(r.statusCode < 200 ∨ 300 ≤ r.statusCode ∨
        contentTypeIsImage r.contentType = false) →
      ∃ l, (downloadImageFromUrlToTempDir env fs0 url (Except.ok r)).events
        = FsEvent.created (getTempFilePath env.tmpDir "test_picture.jpg") :: l) := by
  simp only [downloadImageFromUrlToTempDir]
  by_cases hbad : r.statusCode < 200 ∨ 300 ≤ r.statusCode ∨
      contentTypeIsImage r.contentType = false
  · rw [if_pos hbad]
    refine ⟨⟨fun _ => hbad, fun _ => rfl⟩, fun _ => ⟨rfl, rfl⟩, fun hc => absurd hbad hc⟩
  · rw [if_neg hbad]
    refine ⟨⟨?_, fun hc => absurd hc hbad⟩, fun hc => absurd hc hbad, ?_⟩
    · match hb : r.body with
      | StreamOutcome.failed w e => intro hr; exact absurd hr (by simp)
      | StreamOutcome.complete d => intro hr; exact absurd hr (by simp)
    · intro _
      match hb : r.body with
      | StreamOutcome.failed w e => exact ⟨_, rfl⟩
      | StreamOutcome.complete d => exact ⟨_, rfl⟩

/-- Witness for C5 at a concrete 404 / text-html response. -/
theorem download_validation_iff_witness :
    (downloadImageFromUrlToTempDir envNoDecode [] "https://a.example/miss.png"
        (Except.ok ⟨404, some "text/html", StreamOutcome.complete []⟩)).result
      = Except.error (DownloadError.fetchError "https://a.example/miss.png" 404) :=
  (download_validation_iff envNoDecode [] "https://a.example/miss.png"
    ⟨404, some "text/html", StreamOutcome.complete []⟩).1.mpr
    (Or.inr (Or.inl (by decide)))

/-- C6: for a validated response, a stream error mid-transfer makes the
downloader delete the partially-written temp file and then reject with that
error (creation followed by deletion, nothing left on disk), and the promise
resolves with the temp file path only when the stream completed
successfully, with the full contents on disk. -/
theorem download_stream_error_cleanup (env : Env) (fs0 : FS) (url : String)
    (r : HttpResponse) (h200 : 200 ≤ r.statusCode) (h300 : r.statusCode < 300)
    (himg : contentTypeIsImage r.contentType = true) :
    (∀ w e, r.body = StreamOutcome.failed w e →
      (downloadImageFromUrlToTempDir env fs0 url (Except.ok r)).result
          = Except.error (DownloadError.streamError e) ∧
      checkFileExists (downloadImageFromUrlToTempDir env fs0 url (Except.ok r)).fs
          (getTempFilePath env.tmpDir "test_picture.jpg") = false ∧
      (downloadImageFromUrlToTempDir env fs0 url (Except.ok r)).events
          = [FsEvent.created (getTempFilePath env.tmpDir "test_picture.jpg"),
             FsEvent.deleted (getTempFilePath env.tmpDir "test_picture.jpg")]) ∧
    (∀ p, (downloadImageFromUrlToTempDir env fs0 url (Except.ok r)).result
          = Except.ok p →
      ∃ d, r.body = StreamOutcome.complete d ∧
        p = getTempFilePath env.tmpDir "test_picture.jpg" ∧
        fsLookup (downloadImageFromUrlToTempDir env fs0 url (Except.ok r)).fs
          (getTempFilePath env.tmpDir "test_picture.jpg") = some d) := by
  have hbad : ¬(r.statusCode < 200 ∨ 300 ≤ r.statusCode ∨
      contentTypeIsImage r.contentType = false) := by
    push_neg
    refine ⟨by omega, by omega, by simp [himg]⟩
  simp only [downloadImageFromUrlToTempDir]
  rw [if_neg hbad]
  constructor
  · intro w e hb
    rw [hb]
    refine ⟨rfl, ?_, rfl⟩
    unfold checkFileExists deleteTempFile
    rw [fsLookup_fsDelete_self]
    rfl
  · intro p hp
    match hb : r.body with
    | StreamOutcome.failed w e =>
        rw [hb] at hp
        exact absurd hp (by simp)
    | StreamOutcome.complete d =>
        rw [hb] at hp
        refine ⟨d, ?_, (Except.ok.inj hp).symm, ?_⟩
        · first
          | exact hb
          | rfl
        · show fsLookup (fsWrite fs0 (getTempFilePath env.tmpDir "test_picture.jpg") d)
              (getTempFilePath env.tmpDir "test_picture.jpg") = some d
          unfold fsWrite fsLookup
          rw [if_pos rfl]

/-- Witness for C6 at a concrete mid-transfer connection reset. -/
theorem download_stream_error_cleanup_witness :
    (downloadImageFromUrlToTempDir envNoDecode [("keep.png", [9])] "https://a.example/pic.png"
        (Except.ok ⟨200, some "image/png", StreamOutcome.failed [5] "ECONNRESET"⟩)).result
      = Except.error (DownloadError.streamError "ECONNRESET") ∧
    checkFileExists (downloadImageFromUrlToTempDir envNoDecode [("keep.png", [9])]
        "https://a.example/pic.png"
        (Except.ok ⟨200, some "image/png", StreamOutcome.failed [5] "ECONNRESET"⟩)).fs
      (getTempFilePath envNoDecode.tmpDir "test_picture.jpg") = false ∧
    (downloadImageFromUrlToTempDir envNoDecode [("keep.png", [9])] "https://a.example/pic.png"
        (Except.ok ⟨200, some "image/png", StreamOutcome.failed [5] "ECONNRESET"⟩)).events
      = [FsEvent.created (getTempFilePath envNoDecode.tmpDir "test_picture.jpg"),
         FsEvent.deleted (getTempFilePath envNoDecode.tmpDir "test_picture.jpg")] :=
  (download_stream_error_cleanup envNoDecode [("keep.png", [9])]
      "https://a.example/pic.png"
      ⟨200, some "image/png", StreamOutcome.failed [5] "ECONNRESET"⟩
      (by decide) (by decide) (by decide)).1 [5] "ECONNRESET" rfl

/-- The pixel mismatch test of the comparator at pixel `i`: the perceptual
distance exceeds the threshold.  Modelled from the spec: the `pixelmatch`
library is an external dependency, not code of this repository. -/
def pixelMismatch (dist : RasterImage → RasterImage → Nat → ℚ)
    (expected actual : RasterImage) (threshold : ℚ) (i : Nat) : Bool :=
  decide (threshold < dist expected actual i)

/-- Modelled from the spec: the return value of `pixelmatch(expected.data,
actual.data, diff.data, width, height, {threshold})` — the external pixel
comparator.  For each of the `width × height` pixels it computes a
perceptual color distance between the two rasters and counts the pixel as
mismatched when the distance exceeds the threshold. -/
def pixelmatch (dist : RasterImage → RasterImage → Nat → ℚ)
    (expected actual : RasterImage) (width height : Nat) (threshold : ℚ) :
    Nat :=
  ((List.range (width * height)).filter
    (pixelMismatch dist expected actual threshold)).length

/-- Modelled from the spec: the diff raster `pixelmatch` fills — a same-size
RGBA image with mismatched pixels rendered in a highlight color and matched
pixels dimmed. -/
def pixelmatchDiffImage (dist : RasterImage → RasterImage → Nat → ℚ)
    (expected actual : RasterImage) (width height : Nat) (threshold : ℚ) :
    RasterImage :=
  ⟨width, height,
    (List.range (width * height)).flatMap (fun i =>
      if pixelMismatch dist expected actual threshold i then
        [255, 0, 0, 255]
      else
        [128, 128, 128, 255])⟩

/-- The mismatch threshold option passed to `pixelmatch` (source line 173),
`0.19` on the normalized 0–1 scale. -/
def mismatchThreshold : ℚ := mkRat 19 100

/-- The mismatch count never exceeds the number of pixels compared. -/
theorem pixelmatch_le (dist : RasterImage → RasterImage → Nat → ℚ)
    (expected actual : RasterImage) (width height : Nat) (threshold : ℚ) :
    pixelmatch dist expected actual width height threshold ≤ width * height := by
  unfold pixelmatch
  calc ((List.range (width * height)).filter
        (pixelMismatch dist expected actual threshold)).length
      ≤ (List.range (width * height)).length := List.length_filter_le _ _
    _ = width * height := List.length_range _

/-- The normalization step of the orchestrator (source lines 142–160): if the
decoded actual screenshot's dimensions differ from the baseline's, the
actual file is re-read, resampled to the baseline's dimensions with sharp
and re-decoded; otherwise the decoded screenshot is used unchanged.  `none`
models a thrown exception in the re-read/resize/decode pipeline. -/
def normalizeActualScreenshot (env : Env) (fs : FS)
    (actualScreenshotPath : String)
    (expectedBaseline actualScreenshotOriginalSize : RasterImage) :
    Option RasterImage :=
  if expectedBaseline.width ≠ actualScreenshotOriginalSize.width ∨
      expectedBaseline.height ≠ actualScreenshotOriginalSize.height then
    match fsLookup fs actualScreenshotPath with
    | none => none
    | some actualScreenshotOriginalBuffer =>
        env.decode (env.resize expectedBaseline.width expectedBaseline.height
          actualScreenshotOriginalBuffer)
  else
    some actualScreenshotOriginalSize

/-- Result of an orchestrator run: the value the promise resolves with
(`none` models the catch branch resolving `undefined`), the final
filesystem, and the file events performed, in program order. -/
structure RunResult where
  result : Option Nat
  fs : FS
  events : List FsEvent
deriving DecidableEq

/-- `getMismatchedPixelsCount(actualScreenshotPath, testInfo, sharedContext)`
from the source (lines 125–196), the visual-regression orchestrator: selects
the baseline by (browser engine, mobile flag), decodes baseline and actual
screenshot, normalizes the actual screenshot to the baseline's dimensions,
compares with `pixelmatch` at threshold 0.19, and when the mismatch count is
positive writes the diff image to a unique temp file, attaches baseline,
actual and diff to the report, and deletes the diff temp file; it then
deletes the actual-screenshot temp file and resolves with the count.  Any
exception inside the `try` (modelled by the `none` branches of the reads and
decodes) jumps to the `catch`, which logs and resolves `undefined` — the
statements after the failing one, including the deletions, do not run. -/
def getMismatchedPixelsCount (env : Env) (fs0 : FS)
    (actualScreenshotPath : String) (testInfo : TestInfo)
    (sharedContext : SharedContext) : RunResult :=
  let isMobile := effectiveIsMobile sharedContext
  let baselinePath := expectedBaselinePath testInfo.defaultBrowserType isMobile
  match fsLookup fs0 baselinePath with
  | none => ⟨none, fs0, []⟩
  | some expectedBaselineBuffer =>
  match env.decode expectedBaselineBuffer with
  | none => ⟨none, fs0, []⟩
  | some expectedBaseline =>
  match fsLookup fs0 actualScreenshotPath with
  | none => ⟨none, fs0, []⟩
  | some actualScreenshotBuffer =>
  match env.decode actualScreenshotBuffer with
  | none => ⟨none, fs0, []⟩
  | some actualScreenshotOriginalSize =>
  match normalizeActualScreenshot env fs0 actualScreenshotPath expectedBaseline
      actualScreenshotOriginalSize with
  | none => ⟨none, fs0, []⟩
  | some actualScreenshot =>
  let width := expectedBaseline.width
  let height := expectedBaseline.height
  let mismatchedPixelsCount :=
    pixelmatch env.dist expectedBaseline actualScreenshot width height
      mismatchThreshold
  let mismatchedPixelsDiff :=
    pixelmatchDiffImage env.dist expectedBaseline actualScreenshot width height
      mismatchThreshold
  if 0 < mismatchedPixelsCount then
    let diffImageName := createUniqueFileName testInfo env.now
      "difference_between_basaline_and_actual_screenshot.png"
    let wr := writeDataToFile env fs0 mismatchedPixelsDiff diffImageName
    let fs2 := deleteTempFile wr.2 wr.1
    let fs3 := deleteTempFile fs2 actualScreenshotPath
    ⟨some mismatchedPixelsCount, fs3,
      [FsEvent.created wr.1, FsEvent.attached baselinePath,
       FsEvent.attached actualScreenshotPath, FsEvent.attached wr.1,
       FsEvent.deleted wr.1, FsEvent.deleted actualScreenshotPath]⟩
  else
    ⟨some mismatchedPixelsCount, deleteTempFile fs0 actualScreenshotPath,
      [FsEvent.deleted actualScreenshotPath]⟩

/-- C7: the normalizer returns the decoded screenshot unchanged when its
dimensions equal the baseline's; in every case in which it produces an
image, that image has exactly the baseline's width and height (for the
resize branch this relies on the external resize contract of sharp, taken as
the hypothesis `hresize`), so the comparison proceeds on equal-sized rasters
instead of failing on a dimension mismatch. -/
theorem normalize_unchanged_or_resized (env : Env) (fs : FS) (p : String)
    (expected actualOrig : RasterImage)
    (hresize : ∀ b img,
      env.decode (env.resize expected.width expected.height b) = some img →
      img.width = expected.width ∧ img.height = expected.height) :
    (expected.width = actualOrig.width ∧ expected.height = actualOrig.height →
      normalizeActualScreenshot env fs p expected actualOrig = some actualOrig) ∧
    (∀ img, normalizeActualScreenshot env fs p expected actualOrig = some img →
      img.width = expected.width ∧ img.height = expected.height) := by
  constructor
  · rintro ⟨hw, hh⟩
    unfold normalizeActualScreenshot
    rw [if_neg]
    push_neg
    exact ⟨hw, hh⟩
  · intro img himg
    unfold normalizeActualScreenshot at himg
    by_cases hdim : expected.width ≠ actualOrig.width ∨
        expected.height ≠ actualOrig.height
    · rw [if_pos hdim] at himg
      cases hl : fsLookup fs p with
      | none => rw [hl] at himg; exact absurd himg (by simp)
      | some buf =>
          rw [hl] at himg
          exact hresize buf img himg
    · rw [if_neg hdim] at himg
      push_neg at hdim
      cases himg' : Option.some.inj himg
      exact ⟨hdim.1.symm, hdim.2.symm⟩

/-- A concrete 2×2 raster image. -/
def imgBig : RasterImage := ⟨2, 2, List.replicate 16 0⟩

/-- A concrete environment whose decode/resize pipeline always lands on the
1×1 image `imgEx`: resizing yields the bytes `[8]` and `[8]` decodes to
`imgEx`, while `[9]` decodes to the 2×2 image `imgBig`. -/
def envResize : Env :=
  { decode := fun b => if b = [9] then some imgBig else some imgEx
    resize := fun _ _ _ => [8]
    encode := fun _ => [0]
    dist := fun _ _ _ => 0
    now := 7
    tmpDir := "/tmp" }

/-- A concrete filesystem holding the actual screenshot and the default
baseline asset. -/
def fsRun : FS := [("actual.png", [9]), (baselineHomepageLogo, [8])]

/-- Witness for C7: with equal dimensions the screenshot is unchanged, and a
2×2 screenshot against a 1×1 baseline is resampled to the baseline's
dimensions. -/
theorem normalize_unchanged_or_resized_witness :
    normalizeActualScreenshot envResize fsRun "actual.png" imgEx imgEx
        = some imgEx ∧
    imgEx.width = imgEx.width ∧ imgEx.height = imgEx.height :=
  have hresize : ∀ b img,
      envResize.decode (envResize.resize imgEx.width imgEx.height b) = some img →
      img.width = imgEx.width ∧ img.height = imgEx.height := by
    intro b img hmg
    simp only [envResize] at hmg
    cases Option.some.inj hmg
    exact ⟨rfl, rfl⟩
  ⟨(normalize_unchanged_or_resized envResize fsRun "actual.png" imgEx imgEx
      hresize).1 ⟨rfl, rfl⟩,
   (normalize_unchanged_or_resized envResize fsRun "actual.png" imgEx imgBig
      hresize).2 imgEx (by decide)⟩

/-- A concrete test identity and browser context. -/
def tiEx : TestInfo := ⟨"chromium", "chromium"⟩

/-- A context whose `isMobile` option is absent (`undefined`). -/
def ctxEx : SharedContext := ⟨none⟩

/-- C1, as stated, is false: when an internal exception occurs (here the
baseline bytes fail to decode), the orchestrator jumps to its catch branch
and resolves `undefined` without ever reaching the deletion of the
actual-screenshot temp file, which therefore still exists. -/
theorem actual_file_survives_exception_counterexample :
    (getMismatchedPixelsCount envNoDecode fsRun "actual.png" tiEx ctxEx).result
        = none ∧
    checkFileExists
        (getMismatchedPixelsCount envNoDecode fsRun "actual.png" tiEx ctxEx).fs
        "actual.png" = true := by
  decide

/-- C1 (amended): on every run of the orchestrator that completes and
resolves with a mismatch count — match or mismatch alike — the
actual-screenshot temp file has been deleted when the operation resolves;
when an internal exception occurs in steps 1–5 the deletion is skipped and
the file may remain. -/
theorem actual_deleted_on_completed_run (env : Env) (fs0 : FS) (p : String)
    (ti : TestInfo) (ctx : SharedContext) (n : Nat)
    (h : (getMismatchedPixelsCount env fs0 p ti ctx).result = some n) :
    checkFileExists (getMismatchedPixelsCount env fs0 p ti ctx).fs p = false := by
  simp only [getMismatchedPixelsCount] at h ⊢
  cases h1 : fsLookup fs0
      (expectedBaselinePath ti.defaultBrowserType (effectiveIsMobile ctx)) with
  | none => rw [h1] at h; simp at h
  | some bb =>
  simp only [h1] at h ⊢
  cases h2 : env.decode bb with
  | none => rw [h2] at h; simp at h
  | some expected =>
  simp only [h2] at h ⊢
  cases h3 : fsLookup fs0 p with
  | none => rw [h3] at h; simp at h
  | some ab =>
  simp only [h3] at h ⊢
  cases h4 : env.decode ab with
  | none => rw [h4] at h; simp at h
  | some actualOrig =>
  simp only [h4] at h ⊢
  cases h5 : normalizeActualScreenshot env fs0 p expected actualOrig with
  | none => rw [h5] at h; simp at h
  | some actual =>
  simp only [h5] at h ⊢
  by_cases hc : 0 < pixelmatch env.dist expected actual expected.width
      expected.height mismatchThreshold
  · rw [if_pos hc]
    unfold checkFileExists deleteTempFile
    rw [fsLookup_fsDelete_self]
    rfl
  · rw [if_neg hc]
    unfold checkFileExists deleteTempFile
    rw [fsLookup_fsDelete_self]
    rfl

/-- A concrete environment in which decoding succeeds (everything is the 1×1
image `imgEx`) and every pixel matches, so a run completes with count 0. -/
def envMatch : Env :=
  { decode := fun _ => some imgEx
    resize := fun _ _ b => b
    encode := fun _ => [0]
    dist := fun _ _ _ => 0
    now := 7
    tmpDir := "/tmp" }

/-- Witness for the amended C1 at a concrete completed run. -/
theorem actual_deleted_on_completed_run_witness :
    checkFileExists
        (getMismatchedPixelsCount envMatch fsRun "actual.png" tiEx ctxEx).fs
        "actual.png" = false :=
  actual_deleted_on_completed_run envMatch fsRun "actual.png" tiEx ctxEx 0
    (by decide)

/-- C4: on a completed comparison, a diff temp file exists exactly for a
positive mismatch count: with count 0 the run performs no file creation at
all (only the deletion of the actual screenshot), and with a positive count
it creates exactly one diff temp file, attaches baseline, actual and diff,
then deletes the diff file — which no longer exists afterwards — and finally
deletes the actual screenshot. -/
theorem diff_artifact_iff_mismatch (env : Env) (fs0 : FS) (p : String)
    (ti : TestInfo) (ctx : SharedContext) (n : Nat)
    (h : (getMismatchedPixelsCount env fs0 p ti ctx).result = some n) :
    (n = 0 → (getMismatchedPixelsCount env fs0 p ti ctx).events
        = [FsEvent.deleted p]) ∧
    (0 < n →
      (getMismatchedPixelsCount env fs0 p ti ctx).events
          = [FsEvent.created (getTempFilePath env.tmpDir
              (createUniqueFileName ti env.now
                "difference_between_basaline_and_actual_screenshot.png")),
             FsEvent.attached (expectedBaselinePath ti.defaultBrowserType
              (effectiveIsMobile ctx)),
             FsEvent.attached p,
             FsEvent.attached (getTempFilePath env.tmpDir
              (createUniqueFileName ti env.now
                "difference_between_basaline_and_actual_screenshot.png")),
             FsEvent.deleted (getTempFilePath env.tmpDir
              (createUniqueFileName ti env.now
                "difference_between_basaline_and_actual_screenshot.png")),
             FsEvent.deleted p] ∧
      checkFileExists (getMismatchedPixelsCount env fs0 p ti ctx).fs
          (getTempFilePath env.tmpDir (createUniqueFileName ti env.now
            "difference_between_basaline_and_actual_screenshot.png"))
        = false) := by
  simp only [getMismatchedPixelsCount] at h ⊢
  cases h1 : fsLookup fs0
      (expectedBaselinePath ti.defaultBrowserType (effectiveIsMobile ctx)) with
  | none => rw [h1] at h; simp at h
  | some bb =>
  simp only [h1] at h ⊢
  cases h2 : env.decode bb with
  | none => rw [h2] at h; simp at h
  | some expected =>
  simp only [h2] at h ⊢
  cases h3 : fsLookup fs0 p with
  | none => rw [h3] at h; simp at h
  | some ab =>
  simp only [h3] at h ⊢
  cases h4 : env.decode ab with
  | none => rw [h4] at h; simp at h
  | some actualOrig =>
  simp only [h4] at h ⊢
  cases h5 : normalizeActualScreenshot env fs0 p expected actualOrig with
  | none => rw [h5] at h; simp at h
  | some actual =>
  simp only [h5] at h ⊢
  by_cases hc : 0 < pixelmatch env.dist expected actual expected.width
      expected.height mismatchThreshold
  · rw [if_pos hc] at h ⊢
    simp only at h
    cases Option.some.inj h
    constructor
    · intro h0
      exact absurd h0 (by omega)
    · intro _
      refine ⟨rfl, ?_⟩
      unfold checkFileExists deleteTempFile writeDataToFile
      rw [fsLookup_fsDelete_of_none (fsLookup_fsDelete_self _ _) p]
      rfl
  · rw [if_neg hc] at h ⊢
    simp only at h
    cases Option.some.inj h
    constructor
    · intro _; rfl
    · intro hn
      exact absurd hn hc

/-- A concrete environment in which every pixel mismatches (distance 1
exceeds the 0.19 threshold), so a completed run reports count 1 on the 1×1
rasters. -/
def envMismatch : Env :=
  { decode := fun _ => some imgEx
    resize := fun _ _ b => b
    encode := fun _ => [3]
    dist := fun _ _ _ => 1
    now := 7
    tmpDir := "/tmp" }

/-- Witness for C4 at a concrete mismatching run: one diff file created,
attachments, then the diff file deleted and gone. -/
theorem diff_artifact_iff_mismatch_witness :
    (getMismatchedPixelsCount envMismatch fsRun "actual.png" tiEx ctxEx).events
        = [FsEvent.created (getTempFilePath envMismatch.tmpDir
            (createUniqueFileName tiEx envMismatch.now
              "difference_between_basaline_and_actual_screenshot.png")),
           FsEvent.attached (expectedBaselinePath tiEx.defaultBrowserType
            (effectiveIsMobile ctxEx)),
           FsEvent.attached "actual.png",
           FsEvent.attached (getTempFilePath envMismatch.tmpDir
            (createUniqueFileName tiEx envMismatch.now
              "difference_between_basaline_and_actual_screenshot.png")),
           FsEvent.deleted (getTempFilePath envMismatch.tmpDir
            (createUniqueFileName tiEx envMismatch.now
              "difference_between_basaline_and_actual_screenshot.png")),
           FsEvent.deleted "actual.png"] ∧
    checkFileExists
        (getMismatchedPixelsCount envMismatch fsRun "actual.png" tiEx ctxEx).fs
        (getTempFilePath envMismatch.tmpDir (createUniqueFileName tiEx
          envMismatch.now
          "difference_between_basaline_and_actual_screenshot.png"))
      = false :=
  (diff_artifact_iff_mismatch envMismatch fsRun "actual.png" tiEx ctxEx 1
    (by decide)).2 (by decide)

/-- C10: whenever the orchestrator resolves with a defined mismatch count,
that count is at most width × height of the selected baseline image — the
number of pixels compared. -/
theorem mismatch_count_bounded (env : Env) (fs0 : FS) (p : String)
    (ti : TestInfo) (ctx : SharedContext) (bb : ByteData) (img : RasterImage)
    (n : Nat)
    (hb : fsLookup fs0
      (expectedBaselinePath ti.defaultBrowserType (effectiveIsMobile ctx))
      = some bb)
    (hd : env.decode bb = some img)
    (h : (getMismatchedPixelsCount env fs0 p ti ctx).result = some n) :
    n ≤ img.width * img.height := by
  simp only [getMismatchedPixelsCount, hb, hd] at h
  cases h3 : fsLookup fs0 p with
  | none => rw [h3] at h; simp at h
  | some ab =>
  simp only [h3] at h
  cases h4 : env.decode ab with
  | none => rw [h4] at h; simp at h
  | some actualOrig =>
  simp only [h4] at h
  cases h5 : normalizeActualScreenshot env fs0 p img actualOrig with
  | none => rw [h5] at h; simp at h
  | some actual =>
  simp only [h5] at h
  by_cases hc : 0 < pixelmatch env.dist img actual img.width img.height
      mismatchThreshold
  · rw [if_pos hc] at h
    simp only at h
    cases Option.some.inj h
    exact pixelmatch_le _ _ _ _ _ _
  · rw [if_neg hc] at h
    simp only at h
    cases Option.some.inj h
    exact pixelmatch_le _ _ _ _ _ _

/-- Witness for C10 at a concrete mismatching run (count 1 on a 1×1
baseline). -/
theorem mismatch_count_bounded_witness :
    (1 : Nat) ≤ imgEx.width * imgEx.height :=
  mismatch_count_bounded envMismatch fsRun "actual.png" tiEx ctxEx [8] imgEx 1
    (by decide) rfl (by decide)

end VisualRegression
